import Mathlib

/-!
Verification of the BBS (Bar Bending Schedule) computation core of
`BBS_Tool.py`, shallowly embedded over the rationals.  Python floats are
modelled by `ℚ`; Python's `round(x, n)` (round-half-to-even on the scaled
value) is modelled by `pyRound`; the float floor-division `height // pitch`
followed by `int(...)` is modelled by the rational floor `⌊height / pitch⌋`.
The GUI layer is out of scope: `compute_bbs` is embedded as a function from
the selected member label and the spin-box values to the list of schedule
rows stored in the DataFrame, and the Excel export of a row is embedded as
the ordered 10-tuple of its column values.
-/

/-- `steel_unit_weight_mm` from BBS_Tool.py: unit weight (kg/m) approximated
by dia^2 / 162. -/
def steel_unit_weight_mm (dia_mm : ℚ) : ℚ :=
  (dia_mm * dia_mm) / 162

/-- `ties_cutting_length` from BBS_Tool.py: rectangular stirrup cutting
length (mm); effective sides, base perimeter, hook allowance, bend
deduction. -/
def ties_cutting_length (a_clear b_clear cover dia hook_mult bend_ded_mult : ℚ) : ℚ :=
  let a := a_clear + 2 * cover - dia
  let b := b_clear + 2 * cover - dia
  let base := 2 * (a + b)
  let L_hooks := 2 * hook_mult * dia
  let L_bend_ded := 4 * bend_ded_mult * dia
  base + L_hooks - L_bend_ded

/-- `beam_main_length` from BBS_Tool.py: L = clear_span + 2*(cover + dev_len)
in mm.  The `dia` argument is accepted but unused, as in the source. -/
def beam_main_length (clear_span cover dia dev_len : ℚ) : ℚ :=
  clear_span + 2 * (cover + dev_len)

/-- `column_longitudinal_length` from BBS_Tool.py: L = height_clear + 2*cover
+ lap_len in mm.  The `dia` argument is accepted but unused, as in the
source. -/
def column_longitudinal_length (height_clear cover dia lap_len : ℚ) : ℚ :=
  height_clear + 2 * cover + lap_len

/-- Python's `round(x, n)`: round half to even at `n` decimal places,
modelled exactly on `ℚ`. -/
def pyRound (x : ℚ) (n : ℕ) : ℚ :=
  let m : ℚ := (10 : ℚ) ^ n
  let y := x * m
  let f : ℤ := ⌊y⌋
  let r := y - (f : ℚ)
  let k : ℤ :=
    if r < 1 / 2 then f
    else if 1 / 2 < r then f + 1
    else if f % 2 = 0 then f else f + 1
  (k : ℚ) / m

/-- The spin-box values read by `MainWindow.compute_bbs`: the common fields,
then the Ties, Beam and Column groups.  Bar counts are integers
(`QSpinBox`), all other values are reals (`QDoubleSpinBox`). -/
structure Inputs where
  cover : ℚ
  dia : ℚ
  a : ℚ
  b : ℚ
  height : ℚ
  pitch : ℚ
  hook_mult : ℚ
  bend_mult : ℚ
  span : ℚ
  dev : ℚ
  n_main : ℤ
  col_h : ℚ
  lap : ℚ
  n_vert : ℤ
deriving DecidableEq, Repr

/-- One row of the computed schedule, with the ten columns of the DataFrame
built by `compute_bbs`.  The `Spacing/Pitch` column holds a number for Ties
and is blank (`none`) for Beam and Column. -/
structure ScheduleRow where
  mark : String
  member : String
  dia : ℚ
  count : ℤ
  spacing : Option ℚ
  cutLen : ℚ
  totalLen : ℚ
  unitWt : ℚ
  totalWt : ℚ
  shape : String
deriving DecidableEq, Repr

/-- The first combo-box item of `cmb_member`. -/
def memberTiesLabel : String := "Ties/Stirrups"

/-- The second combo-box item of `cmb_member`. -/
def memberBeamLabel : String := "Beam (simple)"

/-- The third combo-box item of `cmb_member`. -/
def memberColumnLabel : String := "Column (basic)"

/-- `MainWindow.compute_bbs` from BBS_Tool.py: dispatch on the selected
member label, compute the bar count, cutting length, total length and
weights, and build the row list stored in the DataFrame.  Rounding is
applied to the stored values exactly as in the source (`round(CL, 0)`,
`round(total_len_m, 2)`, `round(unit_wt, 3)`, `round(total_wt, 2)`); an
unrecognised member label yields the empty row list. -/
def compute_bbs (member : String) (i : Inputs) : List ScheduleRow :=
  let unit_wt := steel_unit_weight_mm i.dia
  if member = memberTiesLabel then
    let n : ℤ := max 1 (⌊i.height / i.pitch⌋ + 1)
    let CL := ties_cutting_length i.a i.b i.cover i.dia i.hook_mult i.bend_mult
    let total_len_m := CL / 1000 * (n : ℚ)
    let total_wt := total_len_m * unit_wt
    [{ mark := "ST", member := "Stirrups/Ties", dia := i.dia, count := n,
       spacing := some i.pitch, cutLen := pyRound CL 0,
       totalLen := pyRound total_len_m 2, unitWt := pyRound unit_wt 3,
       totalWt := pyRound total_wt 2, shape := "Rect with hooks" }]
  else if member = memberBeamLabel then
    let L := beam_main_length i.span i.cover i.dia i.dev
    let total_len_m := L / 1000 * (i.n_main : ℚ)
    let total_wt := total_len_m * unit_wt
    [{ mark := "BM", member := "Beam", dia := i.dia, count := i.n_main,
       spacing := none, cutLen := pyRound L 0,
       totalLen := pyRound total_len_m 2, unitWt := pyRound unit_wt 3,
       totalWt := pyRound total_wt 2, shape := "Straight + dev @ ends" }]
  else if member = memberColumnLabel then
    let L := column_longitudinal_length i.col_h i.cover i.dia i.lap
    let total_len_m := L / 1000 * (i.n_vert : ℚ)
    let total_wt := total_len_m * unit_wt
    [{ mark := "CL", member := "Column", dia := i.dia, count := i.n_vert,
       spacing := none, cutLen := pyRound L 0,
       totalLen := pyRound total_len_m 2, unitWt := pyRound unit_wt 3,
       totalWt := pyRound total_wt 2, shape := "Straight + lap" }]
  else []

/-- One exported record: the ten column values of a row in the fixed
DataFrame column order, as produced by `dataframe_to_rows(self.df,
index=False, header=False)` in `export_excel`. -/
def export_record (r : ScheduleRow) :
    String × String × ℚ × ℤ × Option ℚ × ℚ × ℚ × ℚ × ℚ × String :=
  (r.mark, r.member, r.dia, r.count, r.spacing, r.cutLen, r.totalLen,
   r.unitWt, r.totalWt, r.shape)

/-- The exported record sequence of a schedule, in row order. -/
def export_rows (s : List ScheduleRow) :
    List (String × String × ℚ × ℤ × Option ℚ × ℚ × ℚ × ℚ × ℚ × String) :=
  s.map export_record

/-- The default spin-box values of the GUI (`setValue` calls in
`_build_ui`): cover 25, dia 8, a 230, b 300, height 3000, pitch 150, hook
multiplier 10, bend multiplier 2, span 4000, dev length 200, 2 main bars,
column height 3000, lap 200, 8 vertical bars. -/
def defaultInputs : Inputs :=
  { cover := 25, dia := 8, a := 230, b := 300, height := 3000, pitch := 150,
    hook_mult := 10, bend_mult := 2, span := 4000, dev := 200, n_main := 2,
    col_h := 3000, lap := 200, n_vert := 8 }

/-- A Ties input whose fields all lie inside the spin-box ranges but whose
cutting length comes out negative: a = 0, b = 0, cover = 0, dia = 8, hook
multiplier 4, bend multiplier 10 give CL = 2*((-8) + (-8)) + 2*4*8 - 4*10*8
= -288. -/
def badGeometryInputs : Inputs :=
  { cover := 0, dia := 8, a := 0, b := 0, height := 3000, pitch := 150,
    hook_mult := 4, bend_mult := 10, span := 4000, dev := 200, n_main := 2,
    col_h := 3000, lap := 200, n_vert := 8 }

/-- Pointwise presentation rounding of a row, exactly as applied by
`compute_bbs` when it builds the stored row: cut length to a whole number,
total length and total weight to 2 decimals, unit weight to 3 decimals. -/
def roundRow (r : ScheduleRow) : ScheduleRow :=
  { r with
    cutLen := pyRound r.cutLen 0, totalLen := pyRound r.totalLen 2,
    unitWt := pyRound r.unitWt 3, totalWt := pyRound r.totalWt 2 }

/-- A member label that is none of the three combo-box items. -/
def otherLabel : String := "Slab"

/-- The Ties row before presentation rounding: the unrounded intermediate
values `CL`, `total_len_m` and `total_wt` of the Ties branch of
`compute_bbs`. -/
def tiesRawRow (i : Inputs) : ScheduleRow where
  mark := "ST"
  member := "Stirrups/Ties"
  dia := i.dia
  count := max 1 (⌊i.height / i.pitch⌋ + 1)
  spacing := some i.pitch
  cutLen := ties_cutting_length i.a i.b i.cover i.dia i.hook_mult i.bend_mult
  totalLen := ties_cutting_length i.a i.b i.cover i.dia i.hook_mult i.bend_mult
    / 1000 * ((max 1 (⌊i.height / i.pitch⌋ + 1) : ℤ) : ℚ)
  unitWt := steel_unit_weight_mm i.dia
  totalWt := ties_cutting_length i.a i.b i.cover i.dia i.hook_mult i.bend_mult
    / 1000 * ((max 1 (⌊i.height / i.pitch⌋ + 1) : ℤ) : ℚ)
    * steel_unit_weight_mm i.dia
  shape := "Rect with hooks"

/-- The Beam row before presentation rounding. -/
def beamRawRow (i : Inputs) : ScheduleRow where
  mark := "BM"
  member := "Beam"
  dia := i.dia
  count := i.n_main
  spacing := none
  cutLen := beam_main_length i.span i.cover i.dia i.dev
  totalLen := beam_main_length i.span i.cover i.dia i.dev / 1000 * (i.n_main : ℚ)
  unitWt := steel_unit_weight_mm i.dia
  totalWt := beam_main_length i.span i.cover i.dia i.dev / 1000 * (i.n_main : ℚ)
    * steel_unit_weight_mm i.dia
  shape := "Straight + dev @ ends"

/-- The Column row before presentation rounding. -/
def columnRawRow (i : Inputs) : ScheduleRow where
  mark := "CL"
  member := "Column"
  dia := i.dia
  count := i.n_vert
  spacing := none
  cutLen := column_longitudinal_length i.col_h i.cover i.dia i.lap
  totalLen := column_longitudinal_length i.col_h i.cover i.dia i.lap
    / 1000 * (i.n_vert : ℚ)
  unitWt := steel_unit_weight_mm i.dia
  totalWt := column_longitudinal_length i.col_h i.cover i.dia i.lap
    / 1000 * (i.n_vert : ℚ) * steel_unit_weight_mm i.dia
  shape := "Straight + lap"

example : ties_cutting_length 230 300 25 8 10 2 = 1324 := by
  unfold ties_cutting_length; norm_num

example : (compute_bbs memberTiesLabel defaultInputs).map ScheduleRow.totalLen
    = [139 / 5] := by
  norm_num [compute_bbs, defaultInputs, ties_cutting_length,
    steel_unit_weight_mm, pyRound]

/-- C1 counterexample: at the GUI default inputs the Ties row stores
`round(27.804, 2) = 27.8` as its total length, while
`cut_length_mm / 1000 * bar_count = 1324 / 1000 * 21 = 27.804`, so the
stored values do not satisfy the claimed exact invariant: the Schedule
stores rounded, not full-precision, values. -/
theorem schedule_stores_rounded_values_cx :
    (compute_bbs memberTiesLabel defaultInputs).map ScheduleRow.totalLen = [139 / 5] ∧
    (compute_bbs memberTiesLabel defaultInputs).map ScheduleRow.cutLen = [1324] ∧
    (compute_bbs memberTiesLabel defaultInputs).map ScheduleRow.count = [21] ∧
    (139 / 5 : ℚ) ≠ 1324 / 1000 * 21 := by
  refine ⟨?_, ?_, ?_, by norm_num⟩ <;>
    norm_num [compute_bbs, defaultInputs, ties_cutting_length,
      steel_unit_weight_mm, pyRound]

/-- C1 (amended): for each member type the single stored row is the
pointwise rounding, applied at row construction, of a row whose unrounded
values satisfy the exact invariants `total_length_m = cut_length_mm / 1000 *
bar_count` and `total_weight_kg = total_length_m * unit_weight_kg_per_m`. -/
theorem schedule_rounds_exact_intermediates (i : Inputs) :
    (∃ r : ScheduleRow, compute_bbs memberTiesLabel i = [roundRow r] ∧
      r.totalLen = r.cutLen / 1000 * (r.count : ℚ) ∧
      r.totalWt = r.totalLen * r.unitWt ∧
      r.unitWt = steel_unit_weight_mm i.dia) ∧
    (∃ r : ScheduleRow, compute_bbs memberBeamLabel i = [roundRow r] ∧
      r.totalLen = r.cutLen / 1000 * (r.count : ℚ) ∧
      r.totalWt = r.totalLen * r.unitWt ∧
      r.unitWt = steel_unit_weight_mm i.dia) ∧
    (∃ r : ScheduleRow, compute_bbs memberColumnLabel i = [roundRow r] ∧
      r.totalLen = r.cutLen / 1000 * (r.count : ℚ) ∧
      r.totalWt = r.totalLen * r.unitWt ∧
      r.unitWt = steel_unit_weight_mm i.dia) := by
  refine ⟨⟨tiesRawRow i, ?_, rfl, rfl, rfl⟩,
    ⟨beamRawRow i, ?_, rfl, rfl, rfl⟩,
    ⟨columnRawRow i, ?_, rfl, rfl, rfl⟩⟩ <;>
    simp [compute_bbs, roundRow, tiesRawRow, beamRawRow, columnRawRow,
      memberTiesLabel, memberBeamLabel, memberColumnLabel]

/-- C2 counterexample: the input with `a = b = 0`, `cover = 0`, `dia = 8`,
`hook_mult = 4`, `bend_mult = 10` has every field inside its documented
domain, yet the cutting length evaluates to `-288 ≤ 0` and `compute_bbs`
still returns a row storing that non-positive cutting length — no
`GeometryError` is raised and no geometry check exists in the code. -/
theorem no_geometry_error_cx :
    (0 ≤ badGeometryInputs.a ∧ 0 ≤ badGeometryInputs.b ∧
     0 ≤ badGeometryInputs.cover ∧ 0 < badGeometryInputs.dia ∧
     0 < badGeometryInputs.pitch ∧ 0 ≤ badGeometryInputs.height ∧
     0 ≤ badGeometryInputs.hook_mult ∧ 0 ≤ badGeometryInputs.bend_mult) ∧
    (compute_bbs memberTiesLabel badGeometryInputs).map ScheduleRow.cutLen
      = [-288] ∧
    ¬ (0 : ℚ) < -288 := by
  refine ⟨by norm_num [badGeometryInputs], ?_, by norm_num⟩
  norm_num [compute_bbs, badGeometryInputs, ties_cutting_length,
    steel_unit_weight_mm, pyRound]

/-- C2 (amended): `compute_bbs` performs no geometry validation at all: for
every Ties input it returns exactly one row whose stored cutting length is
the rounded formula value, whether or not that value is positive. -/
theorem ties_row_always_added (i : Inputs) :
    (compute_bbs memberTiesLabel i).map ScheduleRow.cutLen
      = [pyRound (ties_cutting_length i.a i.b i.cover i.dia i.hook_mult
          i.bend_mult) 0] := by
  simp [compute_bbs]

/-- C3: `ties_cutting_length` returns exactly
`2*((a + 2*cover - dia) + (b + 2*cover - dia)) + 2*hook_mult*dia -
4*bend_ded_mult*dia`, with no clamping of negative effective sides. -/
theorem ties_cutting_length_formula (a b c d h e : ℚ) :
    ties_cutting_length a b c d h e
      = 2 * ((a + 2 * c - d) + (b + 2 * c - d)) + 2 * h * d - 4 * e * d := by
  unfold ties_cutting_length; ring

/-- C4: for a Ties computation with `height ≥ 0` and `pitch > 0` the stored
bar count is `max 1 (⌊height / pitch⌋ + 1)`, and `height = 0` yields bar
count 1. -/
theorem ties_bar_count_rule (i : Inputs) (h0 : 0 ≤ i.height)
    (hp : 0 < i.pitch) :
    (compute_bbs memberTiesLabel i).map ScheduleRow.count
      = [max 1 (⌊i.height / i.pitch⌋ + 1)] ∧
    (i.height = 0 →
      (compute_bbs memberTiesLabel i).map ScheduleRow.count = [1]) := by
  constructor
  · simp [compute_bbs]
  · intro h
    simp [compute_bbs, h]

/-- C4 witness: at the GUI defaults (`height = 3000 ≥ 0`, `pitch = 150 >
0`) the rule instantiates. -/
theorem ties_bar_count_rule_witness :
    (compute_bbs memberTiesLabel defaultInputs).map ScheduleRow.count
      = [max 1 (⌊defaultInputs.height / defaultInputs.pitch⌋ + 1)] ∧
    (defaultInputs.height = 0 →
      (compute_bbs memberTiesLabel defaultInputs).map ScheduleRow.count
        = [1]) :=
  ties_bar_count_rule defaultInputs (by norm_num [defaultInputs])
    (by norm_num [defaultInputs])

/-- C5: for every positive diameter, `steel_unit_weight_mm` returns exactly
`dia ^ 2 / 162`. -/
theorem steel_unit_weight_formula (d : ℚ) (hd : 0 < d) :
    steel_unit_weight_mm d = d ^ 2 / 162 := by
  unfold steel_unit_weight_mm; ring

/-- C5 witness: instantiated at diameter 8. -/
theorem steel_unit_weight_formula_witness :
    (0 : ℚ) < 8 ∧ steel_unit_weight_mm 8 = 8 ^ 2 / 162 :=
  ⟨by norm_num, steel_unit_weight_formula 8 (by norm_num)⟩

/-- C6: `beam_main_length` returns `clear_span + 2*(cover + dev_len)` and
does not depend on the diameter argument. -/
theorem beam_main_length_formula (s c d dl d₁ d₂ : ℚ) :
    beam_main_length s c d dl = s + 2 * (c + dl) ∧
    beam_main_length s c d₁ dl = beam_main_length s c d₂ dl := by
  unfold beam_main_length; exact ⟨rfl, rfl⟩

/-- C7: `column_longitudinal_length` returns `height_clear + 2*cover +
lap_len` and does not depend on the diameter argument. -/
theorem column_longitudinal_length_formula (hc c d ll d₁ d₂ : ℚ) :
    column_longitudinal_length hc c d ll = hc + 2 * c + ll ∧
    column_longitudinal_length hc c d₁ ll
      = column_longitudinal_length hc c d₂ ll := by
  unfold column_longitudinal_length; exact ⟨rfl, rfl⟩

/-- C8: `ties_cutting_length` is linear in the hook multiplier with
coefficient `2*dia` and in the bend-deduction multiplier with coefficient
`-4*dia`, all other arguments fixed. -/
theorem ties_cutting_length_linear (a b c d h e dh de : ℚ) :
    ties_cutting_length a b c d (h + dh) e
      = ties_cutting_length a b c d h e + 2 * d * dh ∧
    ties_cutting_length a b c d h (e + de)
      = ties_cutting_length a b c d h e - 4 * d * de := by
  unfold ties_cutting_length; constructor <;> ring

/-- C9: for each member type every exported record is the 10-tuple (Mark,
Member, Bar Diameter, Count, Spacing/Pitch with blank as `none`, Cut Length
rounded to a whole number, Total Length rounded to 2 decimals, Unit Weight
rounded to 3 decimals, Total Weight rounded to 2 decimals, Shape), in that
order. -/
theorem export_rows_schema (i : Inputs) :
    export_rows (compute_bbs memberTiesLabel i)
      = [("ST", "Stirrups/Ties", i.dia, max 1 (⌊i.height / i.pitch⌋ + 1),
          some i.pitch,
          pyRound (ties_cutting_length i.a i.b i.cover i.dia i.hook_mult
            i.bend_mult) 0,
          pyRound (ties_cutting_length i.a i.b i.cover i.dia i.hook_mult
            i.bend_mult / 1000
            * ((max 1 (⌊i.height / i.pitch⌋ + 1) : ℤ) : ℚ)) 2,
          pyRound (steel_unit_weight_mm i.dia) 3,
          pyRound (ties_cutting_length i.a i.b i.cover i.dia i.hook_mult
            i.bend_mult / 1000
            * ((max 1 (⌊i.height / i.pitch⌋ + 1) : ℤ) : ℚ)
            * steel_unit_weight_mm i.dia) 2,
          "Rect with hooks")] ∧
    export_rows (compute_bbs memberBeamLabel i)
      = [("BM", "Beam", i.dia, i.n_main, none,
          pyRound (beam_main_length i.span i.cover i.dia i.dev) 0,
          pyRound (beam_main_length i.span i.cover i.dia i.dev / 1000
            * (i.n_main : ℚ)) 2,
          pyRound (steel_unit_weight_mm i.dia) 3,
          pyRound (beam_main_length i.span i.cover i.dia i.dev / 1000
            * (i.n_main : ℚ) * steel_unit_weight_mm i.dia) 2,
          "Straight + dev @ ends")] ∧
    export_rows (compute_bbs memberColumnLabel i)
      = [("CL", "Column", i.dia, i.n_vert, none,
          pyRound (column_longitudinal_length i.col_h i.cover i.dia i.lap) 0,
          pyRound (column_longitudinal_length i.col_h i.cover i.dia i.lap
            / 1000 * (i.n_vert : ℚ)) 2,
          pyRound (steel_unit_weight_mm i.dia) 3,
          pyRound (column_longitudinal_length i.col_h i.cover i.dia i.lap
            / 1000 * (i.n_vert : ℚ) * steel_unit_weight_mm i.dia) 2,
          "Straight + lap")] := by
  refine ⟨?_, ?_, ?_⟩ <;>
    simp [compute_bbs, export_rows, export_record,
      memberTiesLabel, memberBeamLabel, memberColumnLabel]

/-- C10: a member label that is none of the three recognised variants
yields the empty schedule (no row added, no error raised). -/
theorem compute_bbs_unknown_member (m : String) (i : Inputs)
    (h1 : m ≠ memberTiesLabel) (h2 : m ≠ memberBeamLabel)
    (h3 : m ≠ memberColumnLabel) :
    compute_bbs m i = [] := by
  simp [compute_bbs, h1, h2, h3]

/-- C10 witness: the unrecognised label yields the empty schedule. -/
theorem compute_bbs_unknown_member_witness :
    compute_bbs otherLabel defaultInputs = [] :=
  compute_bbs_unknown_member otherLabel defaultInputs (by decide) (by decide)
    (by decide)
